import Mathlib

/-!
Verification of the research/article-generation subsystem of the
startbootstrap-clean-blog-jekyll repository (files
`flask_app/research_v2/spider.py` and `flask_app/research_v2/generator.py`).

Python strings are modelled as `List Char` (ASCII suffices for every string
the program manipulates).  MD5 content hashes (`_hash_content`) are modelled
by the identity function on the hashed string: the code uses the hash purely
as a set membership key for exact-duplicate detection, i.e. it treats MD5 as
injective.  Floating-point similarity ratios are modelled as exact rationals;
for the quotients `2*M/T` produced by `difflib.SequenceMatcher.ratio` the
IEEE-double comparisons performed by the Python code agree with the exact
rational comparisons (correctly-rounded division is monotone, and equal
rationals round to equal doubles).  The `random` module is modelled as an
explicit supply of naturals (`List Nat`, default `0` when exhausted),
consumed one value per `random.randint` / `random.choice` call, in program
order.  Network adapters and the HuggingFace summarization pipeline are
external collaborators: their results enter the model as parameters, and a
raising collaborator is an `Except.error`.
-/

namespace PlantResearch

set_option maxRecDepth 100000
set_option maxHeartbeats 10000000

/-- Python strings are modelled as lists of characters. -/
abbrev Str := List Char

/-- Characters treated as whitespace by Python's `str.strip` / `\s` regex
class (ASCII fragment, which covers every string in the program). -/
def isPySpace (c : Char) : Bool :=
  c = ' ' || c = '\t' || c = '\n' || c = '\x0d' || c = '\x0b' || c = '\x0c'

/-- Python `str.strip()` (ASCII whitespace). -/
def pyStrip (s : Str) : Str :=
  ((s.dropWhile isPySpace).reverse.dropWhile isPySpace).reverse

/-- Python `str.lower()` (ASCII fragment). -/
def pyLower (s : Str) : Str := s.map Char.toLower

/-- Python `len`. -/
def pyLen (s : Str) : Nat := s.length

/-- Truthiness of a Python string: non-empty. -/
def pyTruthy (s : Str) : Bool := !s.isEmpty

/-- Python `a or b` on strings: `a` if non-empty else `b`. -/
def pyOr (a b : Str) : Str := if a.isEmpty then b else a

/-- Fuel-indexed worker for `collapseWs` (each step consumes at least one
character, so fuel `length + 1` never runs out). -/
def collapseWsF : Nat → Str → Str
  | 0, _ => []
  | _, [] => []
  | fuel + 1, c :: rest =>
    if isPySpace c then ' ' :: collapseWsF fuel (rest.dropWhile isPySpace)
    else c :: collapseWsF fuel rest

/-- Models `re.sub(r'\s+', ' ', text)`: collapse every whitespace run to a single
space. -/
def collapseWs (s : Str) : Str := collapseWsF (s.length + 1) s

/-- Sentence-terminating punctuation `[.!?]`. -/
def isSentEnd (c : Char) : Bool := c = '.' || c = '!' || c = '?'

/-- Punctuation class `[,.!?;:]` of the spacing-fix regex. -/
def isPunct (c : Char) : Bool :=
  c = ',' || c = '.' || c = '!' || c = '?' || c = ';' || c = ':'

/-- Models `re.sub(r'\s+([,.!?;:])', r'\1', text)`: delete a whitespace run that is
immediately followed by punctuation (left-to-right, non-overlapping). -/
def dropWsBeforePunctF : Nat → Str → Str
  | 0, _ => []
  | _, [] => []
  | fuel + 1, c :: rest =>
    if isPySpace c then
      match rest.dropWhile isPySpace with
      | p :: tl =>
        if isPunct p then p :: dropWsBeforePunctF fuel tl
        else (c :: rest.takeWhile isPySpace) ++ dropWsBeforePunctF fuel (p :: tl)
      | [] => c :: rest.takeWhile isPySpace
    else c :: dropWsBeforePunctF fuel rest

def dropWsBeforePunct (s : Str) : Str := dropWsBeforePunctF (s.length + 1) s

/-- ASCII upper-case letter (`[A-Z]` in the Python regexes). -/
def isUpperAZ (c : Char) : Bool := 'A' ≤ c && c ≤ 'Z'

/-- Models `re.sub(r'([.!?])\s*([A-Z])', r'\1 \2', text)`: normalize the gap between
a sentence terminator and a following capital letter to one space. -/
def fixSentGapF : Nat → Str → Str
  | 0, _ => []
  | _, [] => []
  | fuel + 1, c :: rest =>
    if isSentEnd c then
      match rest.dropWhile isPySpace with
      | u :: tl =>
        if isUpperAZ u then c :: ' ' :: u :: fixSentGapF fuel tl
        else c :: fixSentGapF fuel rest
      | [] => c :: fixSentGapF fuel rest
    else c :: fixSentGapF fuel rest

def fixSentGap (s : Str) : Str := fixSentGapF (s.length + 1) s

/-- Accumulator worker for `splitOnChar` (the current piece is carried
reversed). -/
def splitOnCharAux (sep : Char) : Str → Str → List Str
  | cur, [] => [cur.reverse]
  | cur, c :: rest =>
    if c = sep then cur.reverse :: splitOnCharAux sep [] rest
    else splitOnCharAux sep (c :: cur) rest

/-- Python `str.split(sep)` for a single-character separator. -/
def splitOnChar (sep : Char) (s : Str) : List Str := splitOnCharAux sep [] s

/-- Python `sep.join(parts)`. -/
def joinSep (sep : Str) : List Str → Str
  | [] => []
  | [p] => p
  | p :: rest => p ++ sep ++ joinSep sep rest

/-- Does `pre` occur at the very start of `s`? -/
def leadsWith (pre s : Str) : Bool :=
  match pre, s with
  | [], _ => true
  | _ :: _, [] => false
  | a :: as, b :: bs => a = b && leadsWith as bs

/-- Substring test, Python's `needle in haystack`. -/
def hasSub (hay needle : Str) : Bool :=
  leadsWith needle hay ||
    match hay with
    | [] => false
    | _ :: t => hasSub t needle

/-- Models `random.randint(lo, hi)` drawn from an explicit supply (default draw 0
when the supply is exhausted); returns the value and the remaining supply. -/
def randintDraw (lo hi : Nat) (rng : List Nat) : Nat × List Nat :=
  (lo + rng.headD 0 % (hi + 1 - lo), rng.tail)

/-- A content record as exchanged between the spider and the generator: a
Python dict with keys `source`, `title`, `content`, `url`, `type` (and, for
the spider fallback record, `scientific_name` and `traditional_uses`). -/
structure ContentRecord where
  source : Str
  title : Str
  content : Str
  url : Str
  itemType : Str
  sciName : Str := []
  traditionalUses : List Str := []
deriving DecidableEq

/-- Models `ArticleGenerator._hash_content`: MD5 modelled as the identity (the hash
is used only as an exact-duplicate set key). -/
def hash_content (content : Str) : Str := content

/-- Models `ArticleGenerator.clean_text`. -/
def clean_text (text : Str) : Str :=
  if text.isEmpty then []
  else
    let t := pyStrip (collapseWs text)
    let t := dropWsBeforePunct t
    let t := fixSentGap t
    let sentences := splitOnChar '.' t
    let meaningful := (sentences.map pyStrip).filter (fun s => 10 < s.length)
    joinSep ". ".data meaningful

/-- Keyword lists of `extract_section_content`, per section type. -/
def characteristicsKeywords : List Str :=
  ["appearance", "features", "characteristics", "looks", "size", "color",
   "shape", "form", "structure"].map String.data

def habitatKeywords : List Str :=
  ["habitat", "grows", "environment", "climate", "soil", "native",
   "distribution", "range"].map String.data

def culturalKeywords : List Str :=
  ["traditional", "cultural", "uses", "medicine", "history", "indigenous",
   "ceremony", "healing"].map String.data

def conservationKeywords : List Str :=
  ["conservation", "threat", "endangered", "protect", "status", "vulnerable",
   "extinct"].map String.data

/-- Models `any(keyword in content_lower for keyword in keywords)`. -/
def anyKeyword (contentLower : Str) (kws : List Str) : Bool :=
  kws.any (fun kw => hasSub contentLower kw)

/-- Does this record match the given section type (the branch conditions of
`extract_section_content`)?  For `'general'` the code instead checks the
count bound, handled by the caller. -/
def sectionMatch (section_type contentLower itemType : Str) : Bool :=
  if section_type = "characteristics".data then
    anyKeyword contentLower characteristicsKeywords || itemType = "characteristics".data
  else if section_type = "habitat".data then
    anyKeyword contentLower habitatKeywords || itemType = "habitat".data
  else if section_type = "cultural".data then
    anyKeyword contentLower culturalKeywords || itemType = "cultural".data
  else if section_type = "conservation".data then
    anyKeyword contentLower conservationKeywords || itemType = "conservation".data
  else false

/-- Does the current item get selected?  The `'general'` branch checks only
the count bound; every other branch checks keywords or the adapter-assigned
type. -/
def wantsItem (section_type : Str) (relCount max_items : Nat)
    (contentLower itemType : Str) : Bool :=
  if section_type = "general".data then relCount < max_items
  else sectionMatch section_type contentLower itemType

/-- The item loop of `extract_section_content`.  State: selected cleaned
bodies (in order), the per-call `local_used_hashes`, and the generator's
`self.used_content_hashes`.  Returns the final (selected, global-used)
state; the `break` once `max_items` are selected ends the recursion. -/
def extractLoop (section_type : Str) (max_items : Nat) :
    List ContentRecord → List Str → List Str → List Str → List Str × List Str
  | [], relevant, _localUsed, globalUsed => (relevant, globalUsed)
  | item :: rest, relevant, localUsed, globalUsed =>
    let content := pyStrip item.content
    if content.isEmpty || content.length < 30 then
      extractLoop section_type max_items rest relevant localUsed globalUsed
    else
      let contentHash := hash_content content
      if contentHash ∈ globalUsed ∨ contentHash ∈ localUsed then
        extractLoop section_type max_items rest relevant localUsed globalUsed
      else
        let selected :=
          wantsItem section_type relevant.length max_items
            (pyLower content) (pyLower item.itemType)
        let relevant' := if selected then relevant ++ [clean_text content] else relevant
        let localUsed' := if selected then contentHash :: localUsed else localUsed
        let globalUsed' := if selected then contentHash :: globalUsed else globalUsed
        if max_items ≤ relevant'.length then (relevant', globalUsed')
        else extractLoop section_type max_items rest relevant' localUsed' globalUsed'

/-- Models `ArticleGenerator.extract_section_content`; threads
`self.used_content_hashes` explicitly. -/
def extract_section_content (globalUsed : List Str) (research_data : List ContentRecord)
    (section_type : Str) (max_items : Nat) : Str × List Str :=
  let r := extractLoop section_type max_items research_data [] [] globalUsed
  let combined := joinSep " ".data r.1
  let combined :=
    if 1500 < combined.length then combined.take 1500 ++ "...".data else combined
  (combined, r.2)

/-- The summarization collaborator (`self.summarizer`): given the input text
and the adjusted max/min lengths, it either raises or returns the list of
`summary_text` values.  External black box, passed in as a parameter. -/
abbrev Summarizer := Str → Nat → Nat → Except Unit (List Str)

/-- The guard and request computation of `ArticleGenerator.generate_section`:
`none` when the content is empty or shorter than 20 characters, otherwise
the input text handed to the collaborator together with the adjusted
maximum and minimum summary lengths. -/
def generate_section_request (content prompt : Str) (max_length min_length : Nat) :
    Option (Str × Nat × Nat) :=
  if content.isEmpty || (pyStrip content).isEmpty || (pyStrip content).length < 20 then
    none
  else
    let content := pyStrip content
    let content := if 800 < content.length then content.take 800 else content
    let input_text := prompt ++ ". Based on this information: ".data ++ content
    let adjusted_max := min max_length (max min_length (content.length / 8))
    let adjusted_min := min min_length (adjusted_max / 2)
    some (input_text, adjusted_max, adjusted_min)

/-- Models `ArticleGenerator.generate_section`: every raise of the collaborator is
caught and turned into the empty string. -/
def generate_section (summ : Summarizer) (content prompt : Str)
    (max_length min_length : Nat) : Str :=
  match generate_section_request content prompt max_length min_length with
  | none => []
  | some (input_text, amax, amin) =>
    match summ input_text amax amin with
    | .error _ => []
    | .ok summary =>
      if summary.isEmpty then []
      else
        let summary_text := clean_text (summary.headD [])
        if !summary_text.isEmpty && 15 < summary_text.length then summary_text
        else []

/-- Models `re.split(r'(?<=[.!?])\s+(?=[A-Z])', text)`: split at a whitespace run
preceded by a sentence terminator and followed by a capital letter. -/
def splitSentGoF : Nat → Str → Str → List Str
  | 0, cur, _ => [cur.reverse]
  | _, cur, [] => [cur.reverse]
  | fuel + 1, cur, c :: rest =>
    if isPySpace c && (match cur with
        | l :: _ => isSentEnd l
        | [] => false) then
      match rest.dropWhile isPySpace with
      | u :: tl =>
        if isUpperAZ u then cur.reverse :: splitSentGoF fuel [u] tl
        else splitSentGoF fuel ((rest.takeWhile isPySpace).reverse ++ c :: cur) (u :: tl)
      | [] => [((rest.takeWhile isPySpace).reverse ++ c :: cur).reverse]
    else splitSentGoF fuel (c :: cur) rest

def splitSentencesRe (t : Str) : List Str := splitSentGoF (t.length + 1) [] t

/-- The `class=` attribute of a generated paragraph. -/
def classAttr (cls : Str) : Str :=
  if cls.isEmpty then [] else " class=\"".data ++ cls ++ "\"".data

/-- One rendered `<p>` block. -/
def mkPara (cls body : Str) : Str :=
  "<p".data ++ classAttr cls ++ ">".data ++ body ++ "</p>".data

/-- The sentence loop of `create_html_paragraphs`.  State: pending
`current_para` sentences, the per-call `used_sentences` set (as an
insertion-ordered list), accumulated paragraphs, and the randomness supply.
Returns (paragraphs, final used set, remaining supply). -/
def paraLoop (cls : Str) :
    List Str → List Str → List Str → List Str → List Nat →
    List Str × List Str × List Nat
  | [], current_para, used, paragraphs, rng =>
    let paragraphs :=
      if current_para.isEmpty then paragraphs
      else paragraphs ++ [mkPara cls (joinSep " ".data current_para)]
    (paragraphs, used, rng)
  | s :: rest, current_para, used, paragraphs, rng =>
    let s := pyStrip s
    if s.isEmpty || s.length < 10 then
      paraLoop cls rest current_para used paragraphs rng
    else if hash_content s ∈ used then
      paraLoop cls rest current_para used paragraphs rng
    else
      let used := hash_content s :: used
      let s := if isSentEnd (s.getLastD ' ') then s else s ++ ['.']
      let current_para := current_para ++ [s]
      let (draw, rng) := randintDraw 2 4 rng
      if draw ≤ current_para.length then
        paraLoop cls rest [] used
          (paragraphs ++ [mkPara cls (joinSep " ".data current_para)]) rng
      else
        paraLoop cls rest current_para used paragraphs rng

/-- Models `ArticleGenerator.create_html_paragraphs`; also returns the final
per-call `used_sentences` set and the remaining randomness supply. -/
def create_html_paragraphs (text cls : Str) (rng : List Nat) :
    List Str × List Str × List Nat :=
  if !pyTruthy text || !pyTruthy (pyStrip text) then ([], [], rng)
  else
    let t := clean_text text
    paraLoop cls (splitSentencesRe t) [] [] [] rng

/-- The five summarization prompts of `generate_article`. -/
def introPrompt (n : Str) : Str :=
  "Write a compelling introduction about ".data ++ n ++
  " highlighting its significance as a South African plant species".data

def charPrompt (n : Str) : Str :=
  "Describe the unique physical characteristics and distinctive features of ".data ++ n

def habitatPrompt (n : Str) : Str :=
  "Explain the natural habitat, growing conditions, and ecological role of ".data ++ n

def culturalPrompt (n : Str) : Str :=
  "Discuss the cultural significance and traditional applications of ".data ++ n ++
  " in South African communities".data

def conservationPrompt (n : Str) : Str :=
  "Address conservation concerns and future prospects for ".data ++ n

/-- The five per-section fallback template strings of `generate_article`. -/
def introFallback (n : Str) : Str :=
  n ++ " stands as a distinctive representative of South Africa\x27s remarkable botanical heritage, showcasing the unique adaptations that make this region\x27s flora so extraordinary.".data

def charFallback : Str :=
  "This remarkable species displays unique morphological adaptations that distinguish it from other plants in its family, with specialized features that reflect its evolutionary journey in South African landscapes.".data

def habitatFallback (n : Str) : Str :=
  "The natural distribution of ".data ++ n ++ " reflects South Africa\x27s diverse ecosystems, where it has evolved to occupy a specific ecological niche that supports both its survival and its role in the broader environmental web.".data

def culturalFallback (n : Str) : Str :=
  "Like many indigenous South African plants, ".data ++ n ++ " carries deep cultural significance, representing the intricate relationship between local communities and their natural environment across generations.".data

def conservationFallback (n : Str) : Str :=
  "Conservation efforts for ".data ++ n ++ " are essential to preserve this valuable component of South Africa\x27s botanical diversity, ensuring that future generations can appreciate its unique contributions to the country\x27s natural heritage.".data

/-- The minimum-content fallback block text (`About This Species`). -/
def aboutFallback (n : Str) : Str :=
  "Research into ".data ++ n ++ " continues to reveal the fascinating complexity of South African flora. This species represents the ongoing discovery of botanical treasures that contribute to our understanding of plant evolution and ecological relationships in this biodiverse region.".data

/-- Computes `sections_data`: the five chosen section texts (`content` if
the collaborator produced one, else the `fallback` template), in document
order (introduction, characteristics, habitat, cultural, conservation),
together with the final `self.used_content_hashes` state produced by the
five `extract_section_content` calls. -/
def sectionTexts (summ : Summarizer) (data : List ContentRecord) (n : Str) :
    (Str × Str × Str × Str × Str) × List Str :=
  let e1 := extract_section_content [] data "general".data 1
  let g1 := generate_section summ e1.1 (introPrompt n) 80 40
  let e2 := extract_section_content e1.2 data "characteristics".data 2
  let g2 := generate_section summ e2.1 (charPrompt n) 100 50
  let e3 := extract_section_content e2.2 data "habitat".data 2
  let g3 := generate_section summ e3.1 (habitatPrompt n) 100 50
  let e4 := extract_section_content e3.2 data "cultural".data 2
  let g4 := generate_section summ e4.1 (culturalPrompt n) 100 50
  let e5 := extract_section_content e4.2 data "conservation".data 2
  let g5 := generate_section summ e5.1 (conservationPrompt n) 100 50
  ((pyOr g1 (introFallback n), pyOr g2 charFallback, pyOr g3 (habitatFallback n),
    pyOr g4 (culturalFallback n), pyOr g5 (conservationFallback n)), e5.2)

/-- A rendered `<h2>` section heading. -/
def sectionHeading (title : Str) : Str :=
  "<h2 class=\"section-heading\">".data ++ title ++ "</h2>".data

/-- One iteration of the headed-section loop of `generate_article`: emit the
heading and paragraphs only if the section text is non-empty and its
whole-text hash was not already consumed by `used_section_content`. -/
def addHeadedSection (key title text : Str)
    (st : List Str × List Str × List Nat) : List Str × List Str × List Nat :=
  let (sections, usedSC, rng) := st
  if pyTruthy text then
    if hash_content text ∈ usedSC then (sections, usedSC, rng)
    else
      let (ps, _, rng') := create_html_paragraphs text ("section-".data ++ key) rng
      (sections ++ [sectionHeading title] ++ ps, hash_content text :: usedSC, rng')
  else (sections, usedSC, rng)

/-- The `html_sections` assembly of `generate_article` (introduction without
heading, then the four headed sections, then the minimum-content fallback
block when fewer than 4 blocks were produced). -/
def buildHtmlSections (n : Str) (ts : Str × Str × Str × Str × Str)
    (rng : List Nat) : List Str × List Nat :=
  let (t1, t2, t3, t4, t5) := ts
  let st0 : List Str × List Str × List Nat :=
    if pyTruthy t1 then
      let (ps, _, rng') := create_html_paragraphs t1 "intro".data rng
      (ps, [hash_content t1], rng')
    else ([], [], rng)
  let st1 := addHeadedSection "characteristics".data "Distinctive Features".data t2 st0
  let st2 := addHeadedSection "habitat".data "Natural Habitat & Ecology".data t3 st1
  let st3 := addHeadedSection "cultural".data "Cultural Heritage & Traditional Uses".data t4 st2
  let st4 := addHeadedSection "conservation".data "Conservation & Future Prospects".data t5 st3
  let (sections, _, rng) := st4
  if sections.length < 4 then
    let (ps, _, rng') := create_html_paragraphs (aboutFallback n) "fallback".data rng
    (sections ++ [sectionHeading "About This Species".data] ++ ps, rng')
  else (sections, rng)

/-- The fully composed article handed to `_validate_no_duplicates`
(`'\n\n'.join(html_sections)`, without Jekyll front matter: the module-level
`generate_article` entry point passes `include_front_matter=False`, and
front-matter templating is outside the specified core). -/
def composedArticle (summ : Summarizer) (data : List ContentRecord) (n : Str)
    (rng : List Nat) : Str :=
  joinSep "\n\n".data (buildHtmlSections n (sectionTexts summ data n).1 rng).1

/-- Fuel-and-accumulator worker for `splitPunctRuns` (the current piece is
carried reversed; fuel `length + 1` never runs out). -/
def splitPunctRunsF : Nat → Str → Str → List Str
  | 0, cur, _ => [cur.reverse]
  | _, cur, [] => [cur.reverse]
  | fuel + 1, cur, c :: rest =>
    if isSentEnd c then
      cur.reverse :: splitPunctRunsF fuel [] (rest.dropWhile isSentEnd)
    else splitPunctRunsF fuel (c :: cur) rest

/-- Models `re.split(r'[.!?]+', s)`: split on maximal sentence-punctuation runs. -/
def splitPunctRuns (s : Str) : List Str := splitPunctRunsF (s.length + 1) [] s

/-- Models `re.sub(r'<[^>]+>', '', s)`: delete HTML-tag spans. -/
def stripTagsF : Nat → Str → Str
  | 0, _ => []
  | _, [] => []
  | fuel + 1, c :: rest =>
    if c = '<' then
      match rest.dropWhile (fun d => !(d = '>')) with
      | _ :: tl =>
        if (rest.takeWhile (fun d => !(d = '>'))).isEmpty then c :: stripTagsF fuel rest
        else stripTagsF fuel tl
      | [] => c :: stripTagsF fuel rest
    else c :: stripTagsF fuel rest

def stripTags (s : Str) : Str := stripTagsF (s.length + 1) s

/-- The sentence loop of `_validate_no_duplicates`. -/
def validateLoop : List Str → List Str → Bool
  | [], _ => true
  | sentence :: rest, seen =>
    let cleanS := pyStrip (stripTags sentence)
    if 20 < cleanS.length then
      let h := hash_content (pyLower cleanS)
      if h ∈ seen then false
      else validateLoop rest (h :: seen)
    else validateLoop rest seen

/-- Models `ArticleGenerator._validate_no_duplicates`. -/
def validate_no_duplicates (article : Str) : Bool :=
  validateLoop (splitPunctRuns article) []

/-- The normalized fingerprints of the substantial (longer than 20
characters) sentences in a sentence list: tag-stripped, stripped,
case-folded, in order. -/
def sentenceFps (l : List Str) : List Str :=
  ((l.map (fun s => pyStrip (stripTags s))).filter (fun s => 20 < s.length)).map pyLower

/-- The normalized fingerprints of the substantial sentences of an article.
`_validate_no_duplicates` succeeds exactly when this list has no
duplicates (proved below). -/
def longSentenceFingerprints (article : Str) : List Str :=
  sentenceFps (splitPunctRuns article)

/-- Models `ArticleGenerator._generate_fallback_article` (without front matter). -/
def generate_fallback_article (n : Str) : Str :=
  joinSep "\n\n".data
    ["<p class=\"intro\">".data ++ n ++ " represents one of South Africa\x27s many remarkable indigenous plant species, contributing to the country\x27s reputation as one of the world\x27s most botanically diverse regions.</p>".data,
     sectionHeading "South African Flora Heritage".data,
     "<p class=\"section-heritage\">As part of South Africa\x27s rich botanical tapestry, ".data ++ n ++ " has evolved unique characteristics that reflect millions of years of adaptation to the continent\x27s diverse climates and landscapes.</p>".data,
     sectionHeading "Ecological Significance".data,
     "<p class=\"section-ecology\">The presence of species like ".data ++ n ++ " highlights the intricate ecological relationships that have developed across South African biomes, from coastal regions to mountainous terrain.</p>".data,
     sectionHeading "Conservation Importance".data,
     "<p class=\"section-conservation\">Understanding and preserving native species such as ".data ++ n ++ " remains crucial for maintaining South Africa\x27s extraordinary biodiversity and the ecosystem services these plants provide.</p>".data]

/-- Models `ArticleGenerator.generate_article` as an instance method: takes the
prior `self.used_content_hashes` state, raises `ValueError`
(`Except.error`) when the research data or the plant name is empty, and
otherwise resets the hash state, composes the article, validates it, and
substitutes the fully templated fallback article when validation fails.
Returns the result together with the final hash state. -/
def generate_article_method (g : List Str) (summ : Summarizer)
    (data : List ContentRecord) (n : Str) (rng : List Nat) :
    Except Unit Str × List Str :=
  if data.isEmpty || n.isEmpty then (.error (), g)
  else
    let used' := (sectionTexts summ data n).2
    let final := composedArticle summ data n rng
    if validate_no_duplicates final then (.ok final, used')
    else (.ok (generate_fallback_article n), used')

/-- The module-level `generate_article` convenience entry point: a fresh
`ArticleGenerator` (empty hash state), `include_front_matter=False`. -/
def generate_article (summ : Summarizer) (data : List ContentRecord) (n : Str)
    (rng : List Nat) : Except Unit Str :=
  (generate_article_method [] summ data n rng).1

/-! The spider (`flask_app/research_v2/spider.py`): plant catalog, fuzzy
matching via `difflib.SequenceMatcher`, and research aggregation. -/

/-- One entry of `PlantNameMatcher.SA_PLANTS` (dict insertion order is
preserved in the catalog list below). -/
structure PlantEntry where
  key : Str
  names : List Str
  scientific : Str
  family : Str
  commonNames : List Str
deriving DecidableEq

/-- Models `PlantNameMatcher.SA_PLANTS`. -/
def SA_PLANTS : List PlantEntry :=
  [⟨"protea".data,
    ["protea", "king protea", "protea cynaroides", "sugar bush", "sugarbush"].map String.data,
    "Protea cynaroides".data, "Proteaceae".data,
    ["king protea", "giant protea", "honeypot"].map String.data⟩,
   ⟨"pincushion".data,
    ["pincushion", "leucospermum", "pincushion protea"].map String.data,
    "Leucospermum".data, "Proteaceae".data,
    ["pincushion flower", "needle cushion"].map String.data⟩,
   ⟨"rooibos".data,
    ["rooibos", "red bush", "redbush", "red bush tea", "aspalathus linearis", "bush tea"].map String.data,
    "Aspalathus linearis".data, "Fabaceae".data,
    ["red bush tea", "bush tea", "rooibos tea"].map String.data⟩,
   ⟨"buchu".data,
    ["buchu", "agathosma", "round leaf buchu", "agathosma betulina", "barosma"].map String.data,
    "Agathosma betulina".data, "Rutaceae".data,
    ["bookoo", "diosma", "short buchu"].map String.data⟩,
   ⟨"african_wormwood".data,
    ["african wormwood", "artemisia afra", "wilde als", "umhlonyane", "wormwood"].map String.data,
    "Artemisia afra".data, "Asteraceae".data,
    ["wilde als", "umhlonyane", "African sage"].map String.data⟩,
   ⟨"sutherlandia".data,
    ["sutherlandia", "cancer bush", "kankerbos", "lessertia frutescens", "balloon pea"].map String.data,
    "Lessertia frutescens".data, "Fabaceae".data,
    ["cancer bush", "kankerbos", "balloon pea", "swan plant"].map String.data⟩,
   ⟨"wild_garlic".data,
    ["wild garlic", "tulbaghia", "society garlic", "tulbaghia violacea", "pink agapanthus"].map String.data,
    "Tulbaghia violacea".data, "Amaryllidaceae".data,
    ["society garlic", "sweet garlic", "pink agapanthus"].map String.data⟩,
   ⟨"kanna".data,
    ["kanna", "sceletium", "kougoed", "sceletium tortuosum", "channa"].map String.data,
    "Sceletium tortuosum".data, "Aizoaceae".data,
    ["kougoed", "channa", "tortuose fig-marigold"].map String.data⟩,
   ⟨"honeybush".data,
    ["honeybush", "heuningbos", "cyclopia", "honey bush tea", "mountain tea"].map String.data,
    "Cyclopia intermedia".data, "Fabaceae".data,
    ["heuningbos", "bergtee", "mountain tea"].map String.data⟩,
   ⟨"african_potato".data,
    ["african potato", "hypoxis", "yellow stars", "hypoxis hemerocallidea", "star lily"].map String.data,
    "Hypoxis hemerocallidea".data, "Hypoxidaceae".data,
    ["yellow stars", "star lily", "African star grass"].map String.data⟩,
   ⟨"wild_dagga".data,
    ["wild dagga", "leonotis", "lions tail", "leonotis leonurus", "minaret flower"].map String.data,
    "Leonotis leonurus".data, "Lamiaceae".data,
    ["lions tail", "minaret flower", "lion\x27s ear"].map String.data⟩,
   ⟨"cape_aloe".data,
    ["cape aloe", "aloe ferox", "bitter aloe", "red aloe", "tap aloe"].map String.data,
    "Aloe ferox".data, "Asphodelaceae".data,
    ["bitter aloe", "red aloe", "tap aloe"].map String.data⟩,
   ⟨"bird_of_paradise".data,
    ["bird of paradise", "strelitzia", "strelitzia reginae", "crane flower"].map String.data,
    "Strelitzia reginae".data, "Strelitziaceae".data,
    ["crane flower", "orange bird of paradise"].map String.data⟩]

/-! `difflib.SequenceMatcher` (with `isjunk=None`; `autojunk` has no effect
because every compared string is far shorter than 200 characters). -/

/-- The running best matching block of `find_longest_match`. -/
structure FlmBest where
  besti : Nat
  bestj : Nat
  bestsize : Nat
deriving DecidableEq

/-- Single-pass worker for `b2jIn`, walking `b` with its index. -/
def b2jGo (c : Char) (blo bhi : Nat) : Nat → Str → List Nat
  | _, [] => []
  | j, d :: rest =>
    if d = c ∧ blo ≤ j ∧ j < bhi then j :: b2jGo c blo bhi (j + 1) rest
    else b2jGo c blo bhi (j + 1) rest

/-- The ascending positions `j ∈ [blo, bhi)` with `b[j] = c` (difflib's
`b2j[c]` after the `j < blo` / `j >= bhi` continue/break filter). -/
def b2jIn (b : Str) (c : Char) (blo bhi : Nat) : List Nat :=
  b2jGo c blo bhi 0 b

/-- Lookup in the `j2len` association list (missing key defaults to 0). -/
def assocGet (m : List (Nat × Nat)) (j : Nat) : Nat :=
  match m.find? (fun p => p.1 == j) with
  | some p => p.2
  | none => 0

/-- The inner `j` loop of `find_longest_match`: extends each matching
diagonal ending at row `i`, updating the new `j2len` map and the best
block when a strictly longer match appears. -/
def flmJLoop (i : Nat) (j2lenOld : List (Nat × Nat)) :
    List Nat → List (Nat × Nat) → FlmBest → List (Nat × Nat) × FlmBest
  | [], m, best => (m, best)
  | j :: js, m, best =>
    let k := (if j = 0 then 0 else assocGet j2lenOld (j - 1)) + 1
    let m' := (j, k) :: m
    let best' := if best.bestsize < k then ⟨i + 1 - k, j + 1 - k, k⟩ else best
    flmJLoop i j2lenOld js m' best'

/-- The outer `i` loop of `find_longest_match`, walking the enumerated
`(index, character)` pairs of the `a`-interval. -/
def flmILoop (b : Str) (blo bhi : Nat) :
    List (Nat × Char) → List (Nat × Nat) → FlmBest → FlmBest
  | [], _, best => best
  | (i, ci) :: rest, j2len, best =>
    let js := b2jIn b ci blo bhi
    let r := flmJLoop i j2len js [] best
    flmILoop b blo bhi rest r.1 r.2

/-- Character-safe equality of `a[i]` and `b[j]` (false out of range). -/
def charAt2Eq (a b : Str) (i j : Nat) : Bool :=
  match a.get? i, b.get? j with
  | some x, some y => x == y
  | _, _ => false

/-- The first (non-junk) left-extension loop of `find_longest_match` (with
`isjunk=None` the junk-extension loops never fire). -/
def flmExtendLeftF (a b : Str) (alo blo : Nat) : Nat → FlmBest → FlmBest
  | 0, st => st
  | fuel + 1, ⟨bi, bj, bs⟩ =>
    if alo < bi ∧ blo < bj ∧ charAt2Eq a b (bi - 1) (bj - 1) then
      flmExtendLeftF a b alo blo fuel ⟨bi - 1, bj - 1, bs + 1⟩
    else ⟨bi, bj, bs⟩

def flmExtendLeft (a b : Str) (alo blo : Nat) (st : FlmBest) : FlmBest :=
  flmExtendLeftF a b alo blo (st.besti + 1) st

/-- The first (non-junk) right-extension loop of `find_longest_match`. -/
def flmExtendRightF (a b : Str) (ahi bhi : Nat) : Nat → FlmBest → FlmBest
  | 0, st => st
  | fuel + 1, ⟨bi, bj, bs⟩ =>
    if bi + bs < ahi ∧ bj + bs < bhi ∧ charAt2Eq a b (bi + bs) (bj + bs) then
      flmExtendRightF a b ahi bhi fuel ⟨bi, bj, bs + 1⟩
    else ⟨bi, bj, bs⟩

def flmExtendRight (a b : Str) (ahi bhi : Nat) (st : FlmBest) : FlmBest :=
  flmExtendRightF a b ahi bhi (ahi + 1) st

/-- Models `SequenceMatcher.find_longest_match` on `a[alo:ahi]` / `b[blo:bhi]`. -/
def find_longest_match (a b : Str) (alo ahi blo bhi : Nat) : FlmBest :=
  let best := flmILoop b blo bhi ((a.enum.drop alo).take (ahi - alo)) [] ⟨alo, blo, 0⟩
  flmExtendRight a b ahi bhi (flmExtendLeft a b alo blo best)

/-- Total size of the matching blocks found by
`SequenceMatcher.get_matching_blocks` (the recursion mirrors its work
queue; the final sort/adjacent-merge step does not change the total).
`fuel` bounds the recursion depth; the top-level call passes
`a.length + b.length + 2`, which exceeds the depth of the interval
subdivision (each recursive call strictly shrinks the `a`-interval). -/
def matchBlocksSize (a b : Str) : Nat → Nat → Nat → Nat → Nat → Nat
  | 0, _, _, _, _ => 0
  | fuel + 1, alo, ahi, blo, bhi =>
    let st := find_longest_match a b alo ahi blo bhi
    if st.bestsize = 0 then 0
    else
      (if alo < st.besti ∧ blo < st.bestj then
        matchBlocksSize a b fuel alo st.besti blo st.bestj
      else 0)
      + st.bestsize +
      (if st.besti + st.bestsize < ahi ∧ st.bestj + st.bestsize < bhi then
        matchBlocksSize a b fuel (st.besti + st.bestsize) ahi (st.bestj + st.bestsize) bhi
      else 0)

/-- Models `SequenceMatcher(None, a, b).ratio()`, as an exact rational
(`2*M / (len(a)+len(b))`, via `mkRat`). -/
def similarityScore (a b : Str) : ℚ :=
  let la := a.length
  let lb := b.length
  if la + lb = 0 then 1
  else mkRat (2 * (matchBlocksSize a b (la + lb + 2) 0 la 0 lb)) (la + lb)

/-- One candidate produced by `PlantNameMatcher.fuzzy_match`. -/
structure PlantMatch where
  plant_key : Str
  matched_name : Str
  similarity : ℚ
  scientific_name : Str
  common_names : List Str
  family : Str
deriving DecidableEq

/-- The per-entry name loop of `fuzzy_match`: the first alias that
qualifies (similarity at or above the threshold, or substring containment
in either direction) is taken and the loop breaks, so each catalog entry
contributes at most one candidate. -/
def entryScan (term : Str) (threshold : ℚ) : List Str → Option (Str × ℚ)
  | [] => none
  | name :: rest =>
    let nl := pyLower name
    let sim := similarityScore term nl
    let containsMatch := hasSub nl term || hasSub term nl
    if threshold ≤ sim || containsMatch then some (name, sim)
    else entryScan term threshold rest

/-- The candidates of `fuzzy_match` in catalog insertion order, before
sorting (`term` already lower-cased and stripped). -/
def rawMatches (term : Str) (threshold : ℚ) : List PlantMatch :=
  SA_PLANTS.filterMap (fun e =>
    match entryScan term threshold e.names with
    | some (name, sim) => some ⟨e.key, name, sim, e.scientific, e.commonNames, e.family⟩
    | none => none)

/-- Stable descending insertion: `x` is placed before the first element
whose similarity is at most `x`'s, so an element inserted from further
left in the original list stays before equal-similarity elements. -/
def insertDesc (x : PlantMatch) : List PlantMatch → List PlantMatch
  | [] => [x]
  | y :: ys =>
    if x.similarity < y.similarity then y :: insertDesc x ys
    else x :: y :: ys

/-- Stable sort by non-increasing similarity, the behaviour of Python's
stable `matches.sort(key=lambda x: x['similarity'], reverse=True)`. -/
def sortDescBySim : List PlantMatch → List PlantMatch
  | [] => []
  | x :: xs => insertDesc x (sortDescBySim xs)

/-- Models `PlantNameMatcher.fuzzy_match(search_term, threshold)`: normalize the
input, collect one candidate per entry, then sort stably by descending
similarity. -/
def fuzzy_match (search_term : Str) (threshold : ℚ) : List PlantMatch :=
  sortDescBySim (rawMatches (pyStrip (pyLower search_term)) threshold)

/-- The matched-branch fallback content template of
`ResearchCollector._generate_fallback_content` (before `.strip()`). -/
def fallbackTemplateMatched (n sci fam cn : Str) : Str :=
  "\n".data ++
  n ++
  " (".data ++
  sci ++
  ") is a remarkable plant species native to South Africa, belonging to the ".data ++
  fam ++
  " family. \nIt is also known by several common names including ".data ++
  cn ++
  ". This indigenous species represents the incredible \ndiversity of South African flora, having evolved unique adaptations to thrive in the region\x27s varied climate zones \nand soil conditions.\n\nSouth African plants like ".data ++
  n ++
  " have developed fascinating survival strategies over millions of years of evolution. \nThese adaptations allow them to withstand challenging environmental conditions including drought, extreme temperatures, \nand nutrient-poor soils. Many species have also developed important ecological relationships with local wildlife, \nserving as food sources for birds, insects, and other animals.\n\nThe cultural significance of ".data ++
  n ++
  " extends beyond its ecological role. Like many South African plants, it has \nlikely been known and utilized by indigenous communities for generations, contributing to traditional knowledge systems \nabout local flora. This traditional botanical knowledge represents centuries of observation and experimentation, \nproviding valuable insights into sustainable plant use and conservation.\n\nConservation of species like ".data ++
  n ++
  " is crucial for maintaining South Africa\x27s status as one of the world\x27s most \nbiodiverse countries. These plants not only contribute to ecosystem health and stability but also represent potential \nresources for medicine, horticulture, and sustainable development initiatives.\n            ".data

/-- The unmatched-branch fallback content template of
`ResearchCollector._generate_fallback_content` (before `.strip()`). -/
def fallbackTemplateGeneric (n : Str) : Str :=
  "\n".data ++
  n ++
  " is a remarkable plant species native to South Africa, representing the extraordinary diversity found \nwithin the country\x27s flora. South Africa is recognized as one of the world\x27s most biodiverse regions, home to an \nestimated 24,000 plant species, many of which are found nowhere else on Earth.\n\nIndigenous plants like ".data ++
  n ++
  " have evolved unique characteristics and adaptations that allow them to thrive \nin South Africa\x27s diverse landscapes. From the Mediterranean climate of the Western Cape to the subtropical regions \nof KwaZulu-Natal, these plants have developed sophisticated strategies for survival in challenging conditions.\n\nThe cultural heritage associated with South African plants is deeply intertwined with the history of the region\x27s \npeople. Indigenous communities have developed extensive knowledge about local flora over thousands of years, \nunderstanding their medicinal properties, ecological relationships, and sustainable harvesting practices.\n\nConservation efforts for plants like ".data ++
  n ++
  " are essential for preserving South Africa\x27s botanical heritage. \nThese species contribute to ecosystem stability, provide habitat for wildlife, and may hold keys to future medical \ndiscoveries or sustainable agricultural practices. Understanding and protecting this botanical diversity is crucial \nfor maintaining healthy ecosystems and supporting local communities.\n            ".data

/-- A catalog entry used only to make the `SA_PLANTS[plant_key]` lookup in
`_generate_fallback_content` total (the key always comes from a match, so
the lookup never actually misses). -/
def emptyEntry : PlantEntry := ⟨[], [], [], [], []⟩

/-- Models `ResearchCollector._generate_fallback_content`. -/
def generate_fallback_content (plant_name : Str) : ContentRecord :=
  match fuzzy_match plant_name (mkRat 3 10) with
  | best :: _ =>
    let plantInfo := (SA_PLANTS.find? (fun e => e.key == best.plant_key)).getD emptyEntry
    let sci := plantInfo.scientific
    let fam := plantInfo.family
    let cn := joinSep ", ".data (plantInfo.commonNames.take 3)
    { source := "Enhanced Default".data,
      title := plant_name ++ " - South African Plant Profile".data,
      content := pyStrip (fallbackTemplateMatched plant_name sci fam cn),
      url := "N/A".data,
      itemType := "general_info".data,
      sciName := sci,
      traditionalUses := [] }
  | [] =>
    { source := "Enhanced Default".data,
      title := plant_name ++ " - South African Plant Profile".data,
      content := pyStrip (fallbackTemplateGeneric plant_name),
      url := "N/A".data,
      itemType := "general_info".data,
      sciName := [],
      traditionalUses := [] }

/-- Models `ResearchCollector.collect_research`.  The four source adapters perform
network I/O and are therefore modelled by their results: the Wikipedia
lookup may return a record or nothing; the PubMed and OpenAlex searches
are wrapped in `try` blocks in `collect_research` itself (an exception is
logged and contributes nothing); the botanical-site search catches its own
exceptions and returns a plain list. -/
def collect_research (wiki : Option ContentRecord)
    (pubmed openalex : Except Unit (List ContentRecord))
    (botanical : List ContentRecord) (plant_name : Str) : List ContentRecord :=
  let allContent : List ContentRecord :=
    (match wiki with
     | some w => if pyTruthy w.content then [w] else []
     | none => [])
    ++ (match pubmed with | .ok l => l | .error _ => [])
    ++ (match openalex with | .ok l => l | .error _ => [])
    ++ botanical
  if allContent.isEmpty then [generate_fallback_content plant_name]
  else allContent

/-! Concrete instances used by the counterexamples and witnesses below. -/

/-- A summarization collaborator that raises on every call. -/
def failStub : Summarizer := fun _ _ _ => .error ()

/-- The document carried by an `Except` result (empty on error). -/
def resultDoc (r : Except Unit Str) : Str :=
  match r with
  | .ok s => s
  | .error _ => []

/-- Accumulating worker for `countSub`, testing every suffix. -/
def countSubGo (needle : Str) (acc : Nat) : Str → Nat
  | [] => acc + (if leadsWith needle [] then 1 else 0)
  | c :: t =>
    countSubGo needle (acc + (if leadsWith needle (c :: t) then 1 else 0)) t

/-- Number of (possibly overlapping) occurrences of `needle` in `hay`. -/
def countSub (hay needle : Str) : Nat := countSubGo needle 0 hay

/-- Placeholder candidate for total `headD` access in statements. -/
def junkMatch : PlantMatch := ⟨[], [], 0, [], [], []⟩

/-- A plant name that embeds one sentence twice; the composed article then
fails validation and the un-revalidated fallback article is returned. -/
def c1CexName : Str :=
  "Ab. This duplicated sentence is rather long indeed. This duplicated sentence is rather long indeed. Cd".data

/-- A minimal non-empty research list whose single body is below the
30-character usability threshold. -/
def c1CexData : List ContentRecord :=
  [{ source := [], title := [], content := "short".data, url := [], itemType := [] }]

/-- A benign plant name for the witnesses. -/
def witName : Str := "Protea".data

/-- A deterministic summarizer stub for the sentence-dedup counterexample:
the introduction and characteristics summaries are different texts sharing
one sentence. -/
def c4stub : Summarizer := fun input _ _ =>
  if hasSub input "compelling introduction".data then
    .ok ["Intro only sentence is present here. Shared duplicate sentence appears here in two sections.".data]
  else if hasSub input "physical characteristics".data then
    .ok ["Characteristics only sentence present here. Shared duplicate sentence appears here in two sections.".data]
  else .error ()

/-- The sentence shared by both stub summaries. -/
def c4shared : Str :=
  "Shared duplicate sentence appears here in two sections.".data

/-- Research data feeding the intro (general) and characteristics buckets. -/
def c4data : List ContentRecord :=
  [{ source := [], title := [], content := "General plant information body exceeding thirty characters overall.".data,
     url := [], itemType := [] },
   { source := [], title := [], content := "It has distinctive features and colorful appearance for tests.".data,
     url := [], itemType := [] }]

/-- Two records of 800 characters each: their joined selection exceeds the
1500-character cap, so the code truncates the concatenation. -/
def c5rec1 : ContentRecord :=
  { source := [], title := [], content := List.replicate 800 'a', url := [], itemType := [] }

def c5rec2 : ContentRecord :=
  { source := [], title := [], content := List.replicate 800 'b', url := [], itemType := [] }

/-- A 20-character content string: the shortest accepted by
`generate_section`, for which `len(content) // 8 = 2`. -/
def c6content : Str := "Twenty characters ok".data

/-- Does the top candidate of a result list have similarity exactly 1 and
the given matched alias? -/
def topHasExactAlias (l : List PlantMatch) (aliasStr : Str) : Bool :=
  match l with
  | [] => false
  | m :: _ => decide (m.similarity = 1) && decide (m.matched_name = aliasStr)

/-! Helper lemmas. -/

/-- A character that fails the predicate survives `dropWhile`. -/
theorem mem_dropWhile_of_neg {p : Char → Bool} {c : Char} (hc : p c = false) :
    ∀ {l : Str}, c ∈ l → c ∈ l.dropWhile p := by
  intro l hl
  induction l with
  | nil => cases hl
  | cons x xs ih =>
    by_cases hx : p x = true
    · rw [List.dropWhile_cons_of_pos hx]
      rcases List.mem_cons.mp hl with rfl | h
      · rw [hx] at hc; cases hc
      · exact ih h
    · rw [List.dropWhile_cons_of_neg (by simpa using hx)]
      exact hl

/-- A string containing a non-whitespace character does not strip to
empty. -/
theorem pyStrip_ne_nil_of_mem {c : Char} {s : Str} (hc : isPySpace c = false)
    (hm : c ∈ s) : pyStrip s ≠ [] := by
  unfold pyStrip
  intro h
  have h1 := mem_dropWhile_of_neg hc hm
  have h2 := mem_dropWhile_of_neg hc (List.mem_reverse.mpr h1)
  have h4 := List.mem_reverse.mpr h2
  rw [h] at h4
  cases h4

/-- With a collaborator that raises on every call, `generate_section`
returns the empty string (the raise is caught). -/
theorem generate_section_failStub (c p : Str) (ml mnl : Nat) :
    generate_section failStub c p ml mnl = [] := by
  unfold generate_section
  cases h : generate_section_request c p ml mnl with
  | none => rfl
  | some r => obtain ⟨t, amax, amin⟩ := r; rfl

/-- Claim C8: the whole-record content-fingerprint set is reset at the
start of every `generate_article` invocation, so (a) the result is
independent of the generator instance's prior `used_content_hashes` state,
and (b) a second invocation on the same instance behaves exactly as on a
fresh instance — fingerprints consumed by one invocation never suppress
content in a later one. -/
theorem c8_fresh_fingerprints :
    ∀ (g g' : List Str) (summ : Summarizer) data n rng summ2 data2 n2 rng2,
    (generate_article_method g summ data n rng).1 =
      (generate_article_method g' summ data n rng).1 ∧
    (generate_article_method (generate_article_method g summ data n rng).2
        summ2 data2 n2 rng2).1 =
      (generate_article_method [] summ2 data2 n2 rng2).1 := by
  intro g g' summ data n rng summ2 data2 n2 rng2
  constructor
  · simp only [generate_article_method]
    by_cases h : (data.isEmpty || n.isEmpty) = true <;> simp [h]
  · simp only [generate_article_method]
    by_cases h : (data2.isEmpty || n2.isEmpty) = true <;> simp [h]

/-- Claim C10: `generate_article` raises `ValueError` exactly when the
research data list or the plant name is empty; with non-empty inputs it
always returns a document, for every summarization collaborator. -/
theorem c10_valueerror_iff :
    ∀ (summ : Summarizer) data n rng,
    (generate_article summ data n rng = .error () ↔ data = [] ∨ n = []) ∧
    (data ≠ [] → n ≠ [] → ∃ s, generate_article summ data n rng = .ok s) := by
  intro summ data n rng
  simp only [generate_article, generate_article_method]
  by_cases h : (data.isEmpty || n.isEmpty) = true
  · have h' : data = [] ∨ n = [] := by
      rcases Bool.or_eq_true_iff.mp h with h1 | h1
      · exact Or.inl (List.isEmpty_iff.mp h1)
      · exact Or.inr (List.isEmpty_iff.mp h1)
    constructor
    · simp [h, h']
    · intro hd hn
      rcases h' with h' | h' <;> simp_all
  · have h' : ¬(data = [] ∨ n = []) := by
      simp only [Bool.or_eq_true_iff, List.isEmpty_iff] at h
      tauto
    constructor
    · simp only [h, if_false, Bool.false_eq_true]
      constructor
      · intro hcontra
        split at hcontra <;> simp_all
      · intro hcontra
        exact absurd hcontra h'
    · intro _ _
      simp only [h, if_false, Bool.false_eq_true]
      split
      · exact ⟨_, rfl⟩
      · exact ⟨_, rfl⟩

/-- Claim C7: if the summarization collaborator raises on every call,
`generate_article` never propagates the failure — every section text falls
back to its own template string and a complete document is still
returned. -/
theorem c7_collaborator_failure :
    ∀ data n rng, data ≠ [] → n ≠ [] →
    (sectionTexts failStub data n).1 =
      (introFallback n, charFallback, habitatFallback n,
       culturalFallback n, conservationFallback n) ∧
    ∃ doc, generate_article failStub data n rng = .ok doc := by
  intro data n rng hd hn
  constructor
  · simp only [sectionTexts, generate_section_failStub, pyOr, List.isEmpty_nil,
      if_true]
  · simp only [generate_article, generate_article_method]
    have h : (data.isEmpty || n.isEmpty) = false := by
      simp [List.isEmpty_iff, hd, hn]
    simp only [h, Bool.false_eq_true, if_false]
    split
    · exact ⟨_, rfl⟩
    · exact ⟨_, rfl⟩

/-- Claim C2: `collect_research` always returns a non-empty sequence; in
particular, when every adapter yields nothing it returns exactly the one
synthetic fallback record, whose section type is the general one (spelled
`"general_info"` in the code) and whose body is non-empty. -/
theorem c2_aggregation_nonempty :
    ∀ wiki pubmed openalex botanical (n : Str),
    collect_research wiki pubmed openalex botanical n ≠ [] ∧
    collect_research none (.ok []) (.ok []) [] n = [generate_fallback_content n] ∧
    (generate_fallback_content n).itemType = "general_info".data ∧
    0 < (generate_fallback_content n).content.length := by
  intro wiki pubmed openalex botanical n
  refine ⟨?_, rfl, ?_, ?_⟩
  · have key : ∀ (l : List ContentRecord),
        (if l.isEmpty = true then [generate_fallback_content n] else l) ≠ [] := by
      intro l
      split
      · exact List.cons_ne_nil _ _
      · rename_i hne
        intro hcontra
        rw [hcontra] at hne
        simp at hne
    exact key _
  · unfold generate_fallback_content
    split <;> rfl
  · rw [List.length_pos]
    unfold generate_fallback_content
    split
    · apply pyStrip_ne_nil_of_mem (c := 'r') (by decide)
      unfold fallbackTemplateMatched
      refine List.mem_append_left _ (List.mem_append_left _ (List.mem_append_left _
        (List.mem_append_left _ (List.mem_append_left _ (List.mem_append_left _
          (List.mem_append_left _ (List.mem_append_left _
            (List.mem_append_right _ (by decide)))))))))
    · apply pyStrip_ne_nil_of_mem (c := 'r') (by decide)
      unfold fallbackTemplateGeneric
      refine List.mem_append_left _ (List.mem_append_left _ (List.mem_append_left _
        (List.mem_append_left _ (List.mem_append_right _ (by decide)))))

/-- Each pass of the selection loop of `extract_section_content` keeps the
selected-record count at or below `max_items` (the loop breaks as soon as
the bound is reached), provided the count is below the bound on entry. -/
theorem extractLoop_length_le (st : Str) (k : Nat) :
    ∀ (items : List ContentRecord) (rel lu gu : List Str), rel.length < k →
    ((extractLoop st k items rel lu gu).1).length ≤ k := by
  intro items
  induction items with
  | nil => intro rel lu gu h; exact Nat.le_of_lt h
  | cons item rest ih =>
    intro rel lu gu h
    unfold extractLoop
    dsimp only
    split
    · exact ih rel lu gu h
    · split
      · exact ih rel lu gu h
      · cases hsel : wantsItem st rel.length k
          (pyLower (pyStrip item.content)) (pyLower item.itemType) <;>
          simp only [hsel, if_true, if_false, Bool.false_eq_true]
        · split
          · rename_i hbreak
            exact Nat.le_of_lt h
          · exact ih _ _ _ h
        · split
          · rename_i hbreak
            simp only [List.length_append, List.length_cons, List.length_nil]
            omega
          · rename_i hbreak
            refine ih _ _ _ ?_
            simp only [List.length_append, List.length_cons, List.length_nil] at hbreak ⊢
            omega

/-- Claim C5 (amended): per-bucket selection uses at most 2 records, and the
code truncates the concatenated `rawContent` to 1500 characters overall
(appending a three-character ellipsis), so its length never exceeds 1503 —
the records are not truncated individually. -/
theorem c5_selection_bounds :
    ∀ (g : List Str) (data : List ContentRecord) (st : Str),
    ((extractLoop st 2 data [] [] g).1).length ≤ 2 ∧
    (extract_section_content g data st 2).1.length ≤ 1503 := by
  intro g data st
  constructor
  · exact extractLoop_length_le st 2 data [] [] g (by decide)
  · unfold extract_section_content
    dsimp only
    split
    · rename_i h15
      rw [List.length_append, List.length_take]
      simp only [List.length_cons, List.length_nil]
      omega
    · rename_i h15
      omega

/-- Claim C5 (counterexample): with two 800-character record bodies routed
to the general bucket, the code produces a 1503-character `rawContent`
(the concatenation truncated to 1500 plus an ellipsis), whereas the
concatenation of individually (un)truncated 800-character bodies has 1601
characters — truncation is applied to the whole, not per record. -/
theorem c5_counterexample :
    (extract_section_content [] [c5rec1, c5rec2] "general".data 2).1.length = 1503 ∧
    (joinSep " ".data [clean_text c5rec1.content, clean_text c5rec2.content]).length = 1601 := by
  exact ⟨by decide, by decide⟩

/-- Claim C6 (amended): the maximum summary length handed to the
collaborator is `min(max_length, max(min_length, L // 8))` for the
800-truncated stripped content length `L`: it is at most `L // 8` whenever
`L // 8` is at least the call's `min_length`, it equals
`min(max_length, min_length)` when `L // 8` falls below `min_length`, and
it never exceeds `max_length`. -/
theorem c6_summary_length_bound :
    ∀ (c p : Str) (ml mnl : Nat) (t : Str) (amax amin : Nat),
    generate_section_request c p ml mnl = some (t, amax, amin) →
    (mnl ≤ min (pyStrip c).length 800 / 8 → amax ≤ min (pyStrip c).length 800 / 8) ∧
    (min (pyStrip c).length 800 / 8 < mnl → amax = min ml mnl) ∧
    amax ≤ ml := by
  intro c p ml mnl t amax amin h
  unfold generate_section_request at h
  split at h
  · cases h
  · simp only [Option.some.injEq, Prod.mk.injEq] at h
    obtain ⟨-, hmax, -⟩ := h
    by_cases h8 : 800 < (pyStrip c).length <;>
      simp only [h8, if_true, if_false, List.length_take] at hmax <;> omega

/-- Claim C6 (counterexample): for the 20-character content `c6content`
with the default `min_length = 30`, the requested maximum summary length
is 30, which exceeds one-eighth of the input length (`20 // 8 = 2`). -/
theorem c6_counterexample :
    (generate_section_request c6content "Describe".data 100 30).map
      (fun r => r.2.1) = some 30 ∧
    c6content.length / 8 = 2 ∧ ¬(30 ≤ 2) := by
  exact ⟨by decide, by decide, by decide⟩

/-- Unfolding `sentenceFps` over a substantial head sentence. -/
theorem sentenceFps_cons_pos {s : Str} (rest : List Str)
    (h : 20 < (pyStrip (stripTags s)).length) :
    sentenceFps (s :: rest) = pyLower (pyStrip (stripTags s)) :: sentenceFps rest := by
  simp [sentenceFps, List.filter_cons, h]

/-- Unfolding `sentenceFps` over a short head sentence. -/
theorem sentenceFps_cons_neg {s : Str} (rest : List Str)
    (h : ¬ 20 < (pyStrip (stripTags s)).length) :
    sentenceFps (s :: rest) = sentenceFps rest := by
  simp [sentenceFps, List.filter_cons, h]

/-- The sentence loop of `_validate_no_duplicates` accepts exactly when the
substantial-sentence fingerprints are pairwise distinct and none of them is
already in the seen set. -/
theorem validateLoop_iff : ∀ (l seen : List Str),
    validateLoop l seen = true ↔
      ((sentenceFps l).Nodup ∧ ∀ f ∈ sentenceFps l, f ∉ seen) := by
  intro l
  induction l with
  | nil =>
    intro seen
    simp [validateLoop, sentenceFps]
  | cons s rest ih =>
    intro seen
    by_cases h20 : 20 < (pyStrip (stripTags s)).length
    · rw [sentenceFps_cons_pos rest h20]
      by_cases hm : pyLower (pyStrip (stripTags s)) ∈ seen
      · have hm' : hash_content (pyLower (pyStrip (stripTags s))) ∈ seen := hm
        have hL : validateLoop (s :: rest) seen = false := by
          simp [validateLoop, h20, hm']
        rw [hL]
        simp only [Bool.false_eq_true, false_iff, not_and]
        intro _ hall
        exact absurd hm (hall _ (List.mem_cons_self _ _))
      · have hm' : hash_content (pyLower (pyStrip (stripTags s))) ∉ seen := hm
        have hL : validateLoop (s :: rest) seen =
            validateLoop rest (pyLower (pyStrip (stripTags s)) :: seen) := by
          simp only [validateLoop, hash_content]
          simp [h20, hm']
          intro _
          exact hm
        rw [hL, ih]
        constructor
        · rintro ⟨hnd, hall⟩
          refine ⟨List.nodup_cons.mpr ⟨fun hmem => ?_, hnd⟩, fun f hf => ?_⟩
          · exact (hall _ hmem) (List.mem_cons_self _ _)
          · rcases List.mem_cons.mp hf with rfl | hf'
            · exact hm
            · intro hfs
              exact (hall f hf') (List.mem_cons_of_mem _ hfs)
        · rintro ⟨hcons, hall⟩
          obtain ⟨hnmem, hnd⟩ := List.nodup_cons.mp hcons
          refine ⟨hnd, fun f hf => ?_⟩
          intro hfs
          rcases List.mem_cons.mp hfs with rfl | hfs'
          · exact hnmem hf
          · exact (hall f (List.mem_cons_of_mem _ hf)) hfs'
    · rw [sentenceFps_cons_neg rest h20]
      have hL : validateLoop (s :: rest) seen = validateLoop rest seen := by
        simp [validateLoop, h20]
      rw [hL]
      exact ih seen

/-- Claim C1 (amended): whenever the composed article passes the final
duplicate validation, `generate_article` returns it, and it contains no two
substantial (longer than 20 characters, tag-stripped, case-folded)
sentences with the same fingerprint.  (When validation fails, the fallback
article is substituted without re-validation.) -/
theorem c1_no_duplicate_validated :
    ∀ (summ : Summarizer) data n rng, data ≠ [] → n ≠ [] →
    validate_no_duplicates (composedArticle summ data n rng) = true →
    generate_article summ data n rng = .ok (composedArticle summ data n rng) ∧
    (longSentenceFingerprints (composedArticle summ data n rng)).Nodup := by
  intro summ data n rng hd hn hv
  constructor
  · have h : (data.isEmpty || n.isEmpty) = false := by
      simp [List.isEmpty_iff, hd, hn]
    simp only [generate_article, generate_article_method, h, Bool.false_eq_true,
      if_false, hv, if_true]
  · exact ((validateLoop_iff _ []).mp hv).1

/-- Witness for C1: with a benign name, an always-raising collaborator and a
below-threshold record, validation passes and the composed article is
returned with pairwise-distinct sentence fingerprints. -/
theorem c1_witness :
    generate_article failStub c1CexData witName [] =
      .ok (composedArticle failStub c1CexData witName []) ∧
    (longSentenceFingerprints (composedArticle failStub c1CexData witName [])).Nodup :=
  c1_no_duplicate_validated failStub c1CexData witName []
    (by decide) (by decide) (by decide)

/-- Claim C1 (counterexample): for a plant name that itself embeds one
sentence twice, validation of the composed article fails and the
substituted fallback article — returned without re-validation — contains
two sentences with the same fingerprint, so the document returned by
`generate_article` is not duplicate-free. -/
theorem c1_counterexample :
    ¬ (longSentenceFingerprints
        (resultDoc (generate_article failStub c1CexData c1CexName []))).Nodup := by
  decide

/-- The per-call `used_sentences` set of `create_html_paragraphs` never
receives a duplicate fingerprint. -/
theorem paraLoop_used_nodup (cls : Str) :
    ∀ (sentences cur used paras : List Str) (rng : List Nat), used.Nodup →
    ((paraLoop cls sentences cur used paras rng).2.1).Nodup := by
  intro sentences
  induction sentences with
  | nil =>
    intro cur used paras rng h
    unfold paraLoop
    dsimp only
    exact h
  | cons s rest ih =>
    intro cur used paras rng h
    unfold paraLoop
    dsimp only
    split
    · exact ih _ _ _ _ h
    · split
      · exact ih _ _ _ _ h
      · rename_i hmem
        split <;> split <;>
          exact ih _ _ _ _ (List.nodup_cons.mpr ⟨hmem, h⟩)

/-- Claim C4 (amended): the sentence-fingerprint set used during assembly is
scoped to one `create_html_paragraphs` call (one section), not to the whole
document: within a call it never receives the same fingerprint twice. -/
theorem c4_per_call_dedup :
    ∀ (text cls : Str) (rng : List Nat),
    ((create_html_paragraphs text cls rng).2.1).Nodup := by
  intro text cls rng
  unfold create_html_paragraphs
  split
  · simp
  · exact paraLoop_used_nodup cls _ _ _ _ _ List.nodup_nil

/-- Claim C4 (counterexample): a sentence emitted in the introduction
section is emitted again, not dropped, in the characteristics section of
the same composed document — the dedup set is not document-wide.  (The
duplicate is only caught afterwards by `_validate_no_duplicates`.) -/
theorem c4_counterexample :
    countSub (composedArticle c4stub c4data witName []) c4shared = 2 := by
  decide

/-- Witness for C7: with the always-raising collaborator, a non-empty
record list and a non-empty name, all five sections are their fallback
templates and a document is returned. -/
theorem c7_witness :
    (sectionTexts failStub c1CexData witName).1 =
      (introFallback witName, charFallback, habitatFallback witName,
       culturalFallback witName, conservationFallback witName) ∧
    ∃ doc, generate_article failStub c1CexData witName [] = .ok doc :=
  c7_collaborator_failure c1CexData witName [] (by decide) (by decide)

/-- Witness for C10: an empty research list raises `ValueError`; non-empty
inputs return a document. -/
theorem c10_witness :
    generate_article failStub [] witName [] = .error () ∧
    ∃ s, generate_article failStub c1CexData witName [] = .ok s :=
  ⟨(c10_valueerror_iff failStub [] witName []).1.mpr (Or.inl rfl),
   (c10_valueerror_iff failStub c1CexData witName []).2 (by decide) (by decide)⟩

/-- Membership in a stable descending insertion. -/
theorem mem_insertDesc {x a : PlantMatch} :
    ∀ {l : List PlantMatch}, a ∈ insertDesc x l ↔ a = x ∨ a ∈ l := by
  intro l
  induction l with
  | nil => simp [insertDesc]
  | cons y ys ih =>
    unfold insertDesc
    split
    · simp only [List.mem_cons, ih]
      tauto
    · simp only [List.mem_cons]

/-- Stable descending insertion preserves descending order. -/
theorem pairwise_insertDesc {x : PlantMatch} :
    ∀ {l : List PlantMatch},
    l.Pairwise (fun p q => q.similarity ≤ p.similarity) →
    (insertDesc x l).Pairwise (fun p q => q.similarity ≤ p.similarity) := by
  intro l
  induction l with
  | nil => intro _; simp [insertDesc]
  | cons y ys ih =>
    intro h
    obtain ⟨hy, hys⟩ := List.pairwise_cons.mp h
    unfold insertDesc
    split
    · rename_i hlt
      refine List.pairwise_cons.mpr ⟨fun b hb => ?_, ih hys⟩
      rcases mem_insertDesc.mp hb with rfl | hb'
      · exact le_of_lt hlt
      · exact hy b hb'
    · rename_i hge
      refine List.pairwise_cons.mpr ⟨fun b hb => ?_, h⟩
      rcases List.mem_cons.mp hb with rfl | hb'
      · exact le_of_not_lt hge
      · exact le_trans (hy b hb') (le_of_not_lt hge)

/-- The stable sort of `fuzzy_match` produces a non-increasing similarity
sequence. -/
theorem pairwise_sortDescBySim :
    ∀ (l : List PlantMatch),
    (sortDescBySim l).Pairwise (fun p q => q.similarity ≤ p.similarity) := by
  intro l
  induction l with
  | nil => simp [sortDescBySim]
  | cons x xs ih => exact pairwise_insertDesc ih

/-- Stable descending insertion keeps each equal-similarity class in
original order: filtering an insertion by the inserted element's score
class puts the new element first; filtering by any other class is
unchanged. -/
theorem filter_insertDesc (q : ℚ) (x : PlantMatch) :
    ∀ (l : List PlantMatch),
    (insertDesc x l).filter (fun m => decide (m.similarity = q)) =
      if x.similarity = q then
        x :: l.filter (fun m => decide (m.similarity = q))
      else l.filter (fun m => decide (m.similarity = q)) := by
  intro l
  induction l with
  | nil =>
    unfold insertDesc
    split <;> simp_all [List.filter_cons]
  | cons y ys ih =>
    unfold insertDesc
    split
    · rename_i hlt
      by_cases hx : x.similarity = q
      · have hyq : ¬(y.similarity = q) := by
          intro hyq
          rw [hx] at hlt
          rw [hyq] at hlt
          exact lt_irrefl _ hlt
        simp [List.filter_cons, hx, hyq, ih]
      · simp only [List.filter_cons, ih, hx, if_false]
    · simp [List.filter_cons]

/-- The stable sort preserves the original (catalog) order inside every
equal-similarity class. -/
theorem filter_sortDescBySim (q : ℚ) :
    ∀ (l : List PlantMatch),
    (sortDescBySim l).filter (fun m => decide (m.similarity = q)) =
      l.filter (fun m => decide (m.similarity = q)) := by
  intro l
  induction l with
  | nil => rfl
  | cons x xs ih =>
    show (insertDesc x (sortDescBySim xs)).filter _ = _
    rw [filter_insertDesc q x (sortDescBySim xs), ih, List.filter_cons]
    split <;> simp_all

/-- Claim C9: for every input string and threshold, the candidate list
returned by `fuzzy_match` is sorted by non-increasing similarity, and ties
keep the catalog insertion order: filtering the result by any similarity
value yields exactly the pre-sort (catalog-ordered) candidates with that
value. -/
theorem c9_sorted_stable :
    ∀ (s : Str) (th : ℚ),
    (fuzzy_match s th).Pairwise (fun p q => q.similarity ≤ p.similarity) ∧
    ∀ q : ℚ, (fuzzy_match s th).filter (fun m => decide (m.similarity = q)) =
      (rawMatches (pyStrip (pyLower s)) th).filter (fun m => decide (m.similarity = q)) := by
  intro s th
  exact ⟨pairwise_sortDescBySim _, fun q => filter_sortDescBySim q _⟩

/-- Stable descending insertion is a permutation of consing. -/
theorem perm_insertDesc (x : PlantMatch) :
    ∀ (l : List PlantMatch), List.Perm (insertDesc x l) (x :: l) := by
  intro l
  induction l with
  | nil => rfl
  | cons y ys ih =>
    unfold insertDesc
    split
    · exact (ih.cons y).trans (List.Perm.swap x y ys)
    · rfl

/-- The stable sort permutes its input. -/
theorem perm_sortDescBySim : ∀ (l : List PlantMatch), List.Perm (sortDescBySim l) l := by
  intro l
  induction l with
  | nil => rfl
  | cons x xs ih => exact (perm_insertDesc x (sortDescBySim xs)).trans (ih.cons x)

/-- The plant keys of the pre-sort candidates form a subsequence of the
catalog keys: each entry contributes at most one candidate carrying its own
key. -/
theorem rawMatches_keys_sublist (t : Str) (th : ℚ) :
    List.Sublist ((rawMatches t th).map (fun m => m.plant_key))
      (SA_PLANTS.map (fun e => e.key)) := by
  unfold rawMatches
  generalize SA_PLANTS = l
  induction l with
  | nil => simp
  | cons e es ih =>
    rw [List.filterMap_cons, List.map_cons]
    cases h : entryScan t th e.names with
    | none => exact ih.cons _
    | some r =>
      obtain ⟨name, sim⟩ := r
      rw [List.map_cons]
      exact ih.cons₂ _

/-- Scanning the catalog with the first alias of the protea entry puts that
alias on top with similarity 1. -/
theorem c3scanProtea :
    topHasExactAlias (sortDescBySim (rawMatches "protea".data (mkRat 3 5)))
      "protea".data = true := by
  decide

/-- Scanning the catalog with the first alias of the pincushion entry puts
that alias on top with similarity 1. -/
theorem c3scanPincushion :
    topHasExactAlias (sortDescBySim (rawMatches "pincushion".data (mkRat 3 5)))
      "pincushion".data = true := by
  decide

/-- Scanning the catalog with the first alias of the rooibos entry puts that
alias on top with similarity 1. -/
theorem c3scanRooibos :
    topHasExactAlias (sortDescBySim (rawMatches "rooibos".data (mkRat 3 5)))
      "rooibos".data = true := by
  decide

/-- Scanning the catalog with the first alias of the buchu entry puts that
alias on top with similarity 1. -/
theorem c3scanBuchu :
    topHasExactAlias (sortDescBySim (rawMatches "buchu".data (mkRat 3 5)))
      "buchu".data = true := by
  decide

/-- Scanning the catalog with the first alias of the african wormwood entry
puts that alias on top with similarity 1. -/
theorem c3scanWormwood :
    topHasExactAlias (sortDescBySim (rawMatches "african wormwood".data (mkRat 3 5)))
      "african wormwood".data = true := by
  decide

/-- Scanning the catalog with the first alias of the sutherlandia entry puts
that alias on top with similarity 1. -/
theorem c3scanSutherlandia :
    topHasExactAlias (sortDescBySim (rawMatches "sutherlandia".data (mkRat 3 5)))
      "sutherlandia".data = true := by
  decide

/-- Scanning the catalog with the first alias of the wild garlic entry puts
that alias on top with similarity 1. -/
theorem c3scanWildGarlic :
    topHasExactAlias (sortDescBySim (rawMatches "wild garlic".data (mkRat 3 5)))
      "wild garlic".data = true := by
  decide

/-- Scanning the catalog with the first alias of the kanna entry puts that
alias on top with similarity 1. -/
theorem c3scanKanna :
    topHasExactAlias (sortDescBySim (rawMatches "kanna".data (mkRat 3 5)))
      "kanna".data = true := by
  decide

/-- Scanning the catalog with the first alias of the honeybush entry puts
that alias on top with similarity 1. -/
theorem c3scanHoneybush :
    topHasExactAlias (sortDescBySim (rawMatches "honeybush".data (mkRat 3 5)))
      "honeybush".data = true := by
  decide

/-- Scanning the catalog with the first alias of the african potato entry
puts that alias on top with similarity 1. -/
theorem c3scanAfricanPotato :
    topHasExactAlias (sortDescBySim (rawMatches "african potato".data (mkRat 3 5)))
      "african potato".data = true := by
  decide

/-- Scanning the catalog with the first alias of the wild dagga entry puts
that alias on top with similarity 1. -/
theorem c3scanWildDagga :
    topHasExactAlias (sortDescBySim (rawMatches "wild dagga".data (mkRat 3 5)))
      "wild dagga".data = true := by
  decide

/-- Scanning the catalog with the first alias of the cape aloe entry puts
that alias on top with similarity 1. -/
theorem c3scanCapeAloe :
    topHasExactAlias (sortDescBySim (rawMatches "cape aloe".data (mkRat 3 5)))
      "cape aloe".data = true := by
  decide

/-- Scanning the catalog with the first alias of the bird of paradise entry
puts that alias on top with similarity 1. -/
theorem c3scanBirdOfParadise :
    topHasExactAlias (sortDescBySim (rawMatches "bird of paradise".data (mkRat 3 5)))
      "bird of paradise".data = true := by
  decide

/-- Claim C3 (amended): each catalog entry contributes at most one
candidate — its first alias in list order that qualifies, not its
best-scoring alias — so the candidate keys are pairwise distinct; and for
every input whose normalized form equals the first alias of a catalog
entry, the top candidate returned by `fuzzy_match` has similarityScore
exactly 1 and matchedAlias equal to that alias. -/
theorem c3_first_alias_top :
    (∀ (s : Str) (th : ℚ), ((fuzzy_match s th).map (fun m => m.plant_key)).Nodup) ∧
    (∀ (s : Str) (e : PlantEntry), e ∈ SA_PLANTS →
      pyStrip (pyLower s) = e.names.headD [] →
      topHasExactAlias (fuzzy_match s (mkRat 3 5)) (e.names.headD []) = true) := by
  constructor
  · intro s th
    have hperm : List.Perm ((fuzzy_match s th).map (fun m => m.plant_key))
        ((rawMatches (pyStrip (pyLower s)) th).map (fun m => m.plant_key)) :=
      (perm_sortDescBySim _).map _
    rw [hperm.nodup_iff]
    exact (rawMatches_keys_sublist _ th).nodup (by decide)
  · intro s e he hs
    have hfm : fuzzy_match s (mkRat 3 5) =
        sortDescBySim (rawMatches (e.names.headD []) (mkRat 3 5)) := by
      unfold fuzzy_match
      rw [hs]
    rw [hfm]
    fin_cases he
    · exact c3scanProtea
    · exact c3scanPincushion
    · exact c3scanRooibos
    · exact c3scanBuchu
    · exact c3scanWormwood
    · exact c3scanSutherlandia
    · exact c3scanWildGarlic
    · exact c3scanKanna
    · exact c3scanHoneybush
    · exact c3scanAfricanPotato
    · exact c3scanWildDagga
    · exact c3scanCapeAloe
    · exact c3scanBirdOfParadise

/-- Witness for C3: the amended theorem applied to the first catalog entry
and an input that lower-cases and strips to its first alias. -/
theorem c3_witness :
    topHasExactAlias (fuzzy_match "  PROTEA ".data (mkRat 3 5))
      ((SA_PLANTS.headD emptyEntry).names.headD []) = true :=
  c3_first_alias_top.2 "  PROTEA ".data (SA_PLANTS.headD emptyEntry)
    (by decide) (by decide)

/-- Claim C3 (counterexample): the input `"king protea"` exactly equals a
catalog alias (it is its own lower-cased, trimmed form), yet the top
candidate returned by `fuzzy_match` has matchedAlias `"protea"` — the
entry's first qualifying alias, not its best-scoring one — with
similarityScore 12/17, not 1. -/
theorem c3_counterexample :
    "king protea".data ∈ (SA_PLANTS.map (fun e => e.names)).flatten ∧
    pyStrip (pyLower "king protea".data) = "king protea".data ∧
    (fuzzy_match "king protea".data (mkRat 3 5)).map
      (fun m => (m.matched_name, m.similarity)) =
      [("protea".data, mkRat 12 17), ("pincushion protea".data, mkRat 9 14)] ∧
    ¬ (mkRat 12 17 = 1) := by
  refine ⟨by decide, by decide, by decide, by decide⟩

/-- Witness for C6: the bound theorem applied at the concrete 20-character
content, where `L // 8 = 2 < 30 = min_length`, giving `amax = min 100 30`. -/
theorem c6_witness :
    (30 ≤ min (pyStrip c6content).length 800 / 8 →
      30 ≤ min (pyStrip c6content).length 800 / 8) ∧
    (min (pyStrip c6content).length 800 / 8 < 30 → 30 = min 100 30) ∧
    30 ≤ 100 :=
  c6_summary_length_bound c6content "Describe".data 100 30
    ("Describe".data ++ ". Based on this information: ".data ++ pyStrip c6content)
    30 15 (by decide)

end PlantResearch
